import Mathlib

/-!
Shallow embedding of the conversation/tool orchestration engine of the
local_brain repository (src/llm.py, src/conversations.py,
src/conversation_index.py, src/llm_instructions.py, src/timeout.py).

External effects (LLM API calls, thread-pool futures, the wall clock, the
filesystem) are modelled by explicit oracle parameters and explicit state:

* each backend API call is an `Oracle : String → Except String String`
  giving, for a prompt, either the response text or the exception message
  the Python `except` clause would catch;
* a `future.result(timeout=...)` failure in the fan-out collection loops is
  an `Option String` per submitted call (`some e` = the exception message);
  `as_completed` yields every submitted future, so the collection loop is
  total over the submitted keys;
* the conversations directory and the index file form a `StoreState`;
  `datetime.now()` and `generate_conversation_id()` are string parameters;
* the `Timeout` guard (src/timeout.py) raises `TimeoutError`; a dispatched
  tool handler is an oracle returning `Except TimeoutError String`, the
  error case being the alarm firing before the handler returned.
-/

namespace LocalBrain

/-- Identifiers of the four fixed LLM backends used by the consensus and
superconsensus aggregators in src/llm.py. -/
inductive Backend where
  | gemini
  | grok
  | gpt
  | claude
deriving DecidableEq, BEq, Fintype, Repr

/-- Dictionary key used for a backend in `call_consensus_query`. -/
def backendName : Backend → String
  | .gemini => "gemini"
  | .grok => "grok"
  | .gpt => "gpt"
  | .claude => "claude"

/-- Rendering of `json.dumps` on a one-field dictionary with a string value,
as produced by the `call_*` backend wrappers in src/llm.py. -/
def jsonField (key value : String) : String :=
  "\x7b\"" ++ key ++ "\": \"" ++ value ++ "\"\x7d"

/-- Outcome of one backend API invocation for a given prompt: the response
text, or the message of the exception the wrapper catches. -/
abbrev Oracle := String → Except String String

/-- Embeds `call_gemini` (src/llm.py lines 118-132): on success returns
`json.dumps` of a response field, on any exception `json.dumps` of an error
field.  The key file, endpoint and model id live behind the oracle. -/
def call_gemini (api : Oracle) (prompt : String) : String :=
  match api prompt with
  | Except.ok text => jsonField "response" text
  | Except.error e => jsonField "error" e

/-- Embeds `call_grok` (src/llm.py lines 77-97); same catch-all shape as
`call_gemini`, with the Grok client behind the oracle. -/
def call_grok (api : Oracle) (prompt : String) : String :=
  match api prompt with
  | Except.ok text => jsonField "response" text
  | Except.error e => jsonField "error" e

/-- Embeds `call_openai` (src/llm.py lines 99-116); same catch-all shape,
with the OpenAI client behind the oracle. -/
def call_openai (api : Oracle) (prompt : String) : String :=
  match api prompt with
  | Except.ok text => jsonField "response" text
  | Except.error e => jsonField "error" e

/-- Embeds `call_claude` (src/llm.py lines 134-154); same catch-all shape,
with the Anthropic client behind the oracle. -/
def call_claude (api : Oracle) (prompt : String) : String :=
  match api prompt with
  | Except.ok text => jsonField "response" text
  | Except.error e => jsonField "error" e

/-- One oracle per backend: the external world the aggregators fan out to. -/
structure LlmWorld where
  gemini : Oracle
  grok : Oracle
  gpt : Oracle
  claude : Oracle

/-- Oracle component of the world belonging to a backend identifier. -/
def backendCall (w : LlmWorld) : Backend → Oracle
  | .gemini => w.gemini
  | .grok => w.grok
  | .gpt => w.gpt
  | .claude => w.claude

/-- Result of routing a prompt through the named wrapper of a backend,
as the lambdas in `call_consensus_query` (src/llm.py lines 160-165) do. -/
def backend_api (w : LlmWorld) (b : Backend) (prompt : String) : String :=
  match b with
  | .gemini => call_gemini w.gemini prompt
  | .grok => call_grok w.grok prompt
  | .gpt => call_openai w.gpt prompt
  | .claude => call_claude w.claude prompt

/-- Entry stored under one backend key by the collection loop of
`call_consensus_query` (src/llm.py lines 175-181): the wrapper result if
`future.result` returned, otherwise an inline error entry. -/
def consensus_entry (b : Backend) (futureError : Option String) (callResult : String) : String :=
  match futureError with
  | some e => jsonField "error" ("Error calling " ++ backendName b ++ ": " ++ e)
  | none => callResult

/-- Value held by the `responses` dictionary of `call_consensus_query` at a
backend key, given the world and the per-future failures. -/
def consensus_responses (w : LlmWorld) (fut : Backend → Option String)
    (prompt : String) (b : Backend) : String :=
  consensus_entry b (fut b) (backend_api w b prompt)

/-- Fixed order in which `call_consensus_query` formats the four backends. -/
def consensusOrder : List Backend := [Backend.gemini, Backend.grok, Backend.gpt, Backend.claude]

/-- Embeds `call_consensus_query` (src/llm.py lines 156-197): the four keyed
entries of the `responses` dictionary after fan-out and collection, paired
with the formatted transcript the function returns.  `fut b` is the failure,
if any, of the future submitted for backend `b`. -/
def call_consensus_query (w : LlmWorld) (fut : Backend → Option String) (prompt : String) :
    List (Backend × String) × String :=
  let responses := consensusOrder.map (fun b => (b, consensus_responses w fut prompt b))
  (responses,
    "\n    Responses for prompt: " ++ prompt ++
    "\n    \n    Gemini response: " ++ ((responses.lookup Backend.gemini).getD "No response") ++
    "\n    \n    Grok response: " ++ ((responses.lookup Backend.grok).getD "No response") ++
    "\n    \n    GPT-5 response: " ++ ((responses.lookup Backend.gpt).getD "No response") ++
    "\n    \n    Claude response: " ++ ((responses.lookup Backend.claude).getD "No response") ++
    "\n    \n    ")

/-- Selector prompt built by `select_best_gemini` inside `call_superconsensus`
(src/llm.py lines 241-250). -/
def gemini_selector_prompt (prompt r1 r2 : String) : String :=
  "\n        The following are 2 responses for this prompt: <start_prompt>" ++ prompt ++
  "</start_prompt>\n        \n        Response A: <response>" ++ r1 ++
  "</response>\n        Response B: <response>" ++ r2 ++
  "</response>\n        \n        Choose A or B and briefly explain why. Then provide your own opinion on the topic.\n        "

/-- Selector prompt built by `select_best_grok` (src/llm.py lines 252-261). -/
def grok_selector_prompt (prompt r1 r2 : String) : String :=
  "\n        The following are 2 responses for this prompt: <start_prompt>" ++ prompt ++
  "</start_prompt>\n        \n        Response A: <response>" ++ r1 ++
  "</response>\n        Response B: <response>" ++ r2 ++
  "</response>\n        \n        Choose A or B and briefly explain why. Then provide your own opinion on the topic.\n        "

/-- Selector prompt built by `select_best_gpt` (src/llm.py lines 263-272). -/
def gpt_selector_prompt (prompt r1 r2 : String) : String :=
  "\n        The following are 2 responses for this prompt: <start_prompt>" ++ prompt ++
  "</start_prompt>\n        \n        Response A: <response>" ++ r1 ++
  "</response>\n        Response B: <response>" ++ r2 ++
  "</response>\n        \n        Choose A or B and briefly explain why. Then provide your own opinion on the topic.\n        "

/-- Selector prompt built by `select_best_claude` (src/llm.py lines 274-283);
unlike the other three it carries no response tags. -/
def claude_selector_prompt (prompt r1 r2 : String) : String :=
  "\n        Choose the better response for this prompt: " ++ prompt ++
  "\n        \n        Response A: " ++ r1 ++
  "\n        Response B: " ++ r2 ++
  "\n        \n        Choose A or B and briefly explain why. Then provide your own opinion on the topic.\n        "

/-- Embeds `select_best_gemini` (src/llm.py lines 241-250): the pair of
round-1 gemini answers is sent to `call_openai`. -/
def select_best_gemini (w : LlmWorld) (prompt gemini_1 gemini_2 : String) : String :=
  call_openai w.gpt (gemini_selector_prompt prompt gemini_1 gemini_2)

/-- Embeds `select_best_grok` (src/llm.py lines 252-261): the pair of
round-1 grok answers is sent to `call_gemini`. -/
def select_best_grok (w : LlmWorld) (prompt grok_1 grok_2 : String) : String :=
  call_gemini w.gemini (grok_selector_prompt prompt grok_1 grok_2)

/-- Embeds `select_best_gpt` (src/llm.py lines 263-272): the pair of
round-1 gpt answers is sent to `call_grok`. -/
def select_best_gpt (w : LlmWorld) (prompt gpt_1 gpt_2 : String) : String :=
  call_grok w.grok (gpt_selector_prompt prompt gpt_1 gpt_2)

/-- Embeds `select_best_claude` (src/llm.py lines 274-283): the pair of
round-1 claude answers is sent to `call_gemini`. -/
def select_best_claude (w : LlmWorld) (prompt claude_1 claude_2 : String) : String :=
  call_gemini w.gemini (claude_selector_prompt prompt claude_1 claude_2)

/-- Judge assignment realized by the four selection closures of
`call_superconsensus`: which backend judges the round-1 pair of each
backend. -/
def judgeOf : Backend → Backend
  | .gemini => .gpt
  | .grok => .gemini
  | .gpt => .grok
  | .claude => .gemini

/-- Selector prompt constructor used for a backend's pair. -/
def selector_prompt : Backend → String → String → String → String
  | .gemini => gemini_selector_prompt
  | .grok => grok_selector_prompt
  | .gpt => gpt_selector_prompt
  | .claude => claude_selector_prompt

/-- Selection closure of `call_superconsensus` belonging to a backend. -/
def select_for (w : LlmWorld) : Backend → String → String → String → String
  | .gemini => select_best_gemini w
  | .grok => select_best_grok w
  | .gpt => select_best_gpt w
  | .claude => select_best_claude w

/-- Named backend wrapper (the `call_*` function of src/llm.py) belonging to
a backend identifier. -/
def wrapper_for : Backend → Oracle → String → String
  | .gemini => call_gemini
  | .grok => call_grok
  | .gpt => call_openai
  | .claude => call_claude

/-- External world of one `call_superconsensus` invocation:
`round1 b i` is the API outcome of the i-th duplicated round-1 call of
backend `b`, `round1Fut b i` a failure of that call's future, `w` the
oracles consulted by the round-2 judge calls, and `selectionFailed b`
whether the round-2 future for backend `b`'s selection raised. -/
structure SuperEnv where
  w : LlmWorld
  round1 : Backend → Fin 2 → Except String String
  round1Fut : Backend → Fin 2 → Option String
  selectionFailed : Backend → Bool

/-- Key of a round-1 call in the `model_calls` dictionary of
`call_superconsensus` (src/llm.py lines 203-212). -/
def call_name (b : Backend) (i : Fin 2) : String :=
  backendName b ++ "_" ++ (if i = 0 then "1" else "2")

/-- String bound to a round-1 slot (gemini_1, ..., claude_2) after the
round-1 collection loop of `call_superconsensus` (src/llm.py lines
214-237): the wrapper result, or an inline error entry if the future
failed. -/
def round1_result (env : SuperEnv) (prompt : String) (b : Backend) (i : Fin 2) : String :=
  match env.round1Fut b i with
  | some e => jsonField "error" ("Error in " ++ call_name b i ++ ": " ++ e)
  | none =>
    match b with
    | .gemini => call_gemini (fun _ => env.round1 Backend.gemini i) prompt
    | .grok => call_grok (fun _ => env.round1 Backend.grok i) prompt
    | .gpt => call_openai (fun _ => env.round1 Backend.gpt i) prompt
    | .claude => call_claude (fun _ => env.round1 Backend.claude i) prompt

/-- Entry of the `selection_results` dictionary for a backend after the
round-2 collection loop (src/llm.py lines 285-305): the judge's answer, or
the fixed placeholder when the round-2 future raised. -/
def superconsensus_selections (env : SuperEnv) (prompt : String) (b : Backend) : String :=
  if env.selectionFailed b then "Selection failed"
  else select_for env.w b prompt (round1_result env prompt b 0) (round1_result env prompt b 1)

/-- Embeds the report assembly of `call_superconsensus` (src/llm.py lines
307-322).  The literal slot labels reproduce the source, including the
mislabelled last slot. -/
def call_superconsensus (env : SuperEnv) (prompt : String) : String :=
  "\n    SUPERCONSENSUS for prompt: " ++ prompt ++
  "\n    \n    Best Gemini (selected by GPT-5): " ++ superconsensus_selections env prompt Backend.gemini ++
  "\n    \n    Best Grok (selected by Gemini): " ++ superconsensus_selections env prompt Backend.grok ++
  "\n    \n    Best GPT-5 (selected by Grok): " ++ superconsensus_selections env prompt Backend.gpt ++
  "\n    \n    Best Claude (selected by Claude): " ++ superconsensus_selections env prompt Backend.claude ++
  "\n    "

/-- Concrete world in which the four backend oracles are distinguishable. -/
def superWorld0 : LlmWorld :=
  ⟨fun p => Except.ok ("G:" ++ p), fun p => Except.ok ("K:" ++ p),
   fun p => Except.ok ("O:" ++ p), fun p => Except.ok ("C:" ++ p)⟩

/-- Concrete superconsensus environment with no failures. -/
def superEnv0 : SuperEnv :=
  ⟨superWorld0, fun _ _ => Except.ok "r", fun _ _ => none, fun _ => false⟩

/-- One entry of the serialized `tool_calls` list of a persisted message.
The Python dictionaries nest the fields under a `function` key; the flat
record keeps the same two fields. -/
structure ToolCall where
  name : String
  arguments : List (String × String)
deriving DecidableEq, Repr

/-- One persisted conversation message (src/llm.py `messages` entries):
role, content, and the `tool_calls` key when the dictionary carries one. -/
structure Message where
  role : String
  content : String
  tool_calls : Option (List ToolCall)
deriving DecidableEq, Repr

/-- Persisted conversation record, the `conversation_data` dictionary of
`save_conversation` (src/conversations.py lines 18-23). -/
structure ConversationData where
  id : String
  created_at : String
  updated_at : String
  messages : List Message
deriving DecidableEq, Repr

/-- One entry of the conversation index, as written by
`add_conversation_to_index` (src/conversation_index.py lines 77-83). -/
structure IndexEntry where
  id : String
  summary : String
  message_count : Nat
  last_updated : String
  filename : String
deriving DecidableEq, Repr

/-- Durable state of the conversation store: the files of the conversations
directory keyed by conversation id, and the single index file. -/
structure StoreState where
  files : List (String × ConversationData)
  index : List IndexEntry
deriving DecidableEq, Repr

/-- Writing `conversations/<cid>.json`: replace the record of that id, or
create it. -/
def setFile : List (String × ConversationData) → String → ConversationData →
    List (String × ConversationData)
  | [], cid, d => [(cid, d)]
  | (k, v) :: rest, cid, d =>
    if k == cid then (cid, d) :: rest else (k, v) :: setFile rest cid d

/-- Replace-in-place-or-append step of `add_conversation_to_index`
(src/conversation_index.py lines 70-88): the first index entry with this id
is replaced, otherwise the entry is appended. -/
def upsertIndex (cid : String) (entry : IndexEntry) : List IndexEntry → List IndexEntry
  | [] => [entry]
  | e :: rest => if e.id == cid then entry :: rest else e :: upsertIndex cid entry rest

/-- First index entry recorded for a conversation id. -/
def lookupIndex (st : StoreState) (cid : String) : Option IndexEntry :=
  st.index.find? (fun e => e.id == cid)

/-- Embeds `add_conversation_to_index` (src/conversation_index.py lines
63-90).  `summarize` stands for the Ollama-backed `summarize_conversation`
call; `now` for `datetime.now().isoformat()`. -/
def add_conversation_to_index (summarize : List Message → String) (now : String)
    (st : StoreState) (cid : String) (messages : List Message) : StoreState :=
  let entry : IndexEntry :=
    { id := cid, summary := summarize messages, message_count := messages.length,
      last_updated := now, filename := "conversations/" ++ cid ++ ".json" }
  { st with index := upsertIndex cid entry st.index }

/-- Embeds `save_conversation` (src/conversations.py lines 13-29): write the
full record under the id, then rebuild that id's index entry. -/
def save_conversation (summarize : List Message → String) (now : String)
    (st : StoreState) (cid : String) (messages : List Message) : StoreState :=
  let data : ConversationData :=
    { id := cid, created_at := now, updated_at := now, messages := messages }
  add_conversation_to_index summarize now { st with files := setFile st.files cid data } cid messages

/-- Embeds `load_conversation` (src/conversations.py lines 31-40): the
messages of the record, or `[]` when no file exists for the id. -/
def load_conversation (st : StoreState) (cid : String) : List Message :=
  match st.files.lookup cid with
  | none => []
  | some d => d.messages

/-- Embeds `update_conversation` (src/conversations.py lines 42-59): if a
record exists, overwrite only its `messages` and `updated_at` fields and
rebuild the index entry; otherwise fall back to `save_conversation`. -/
def update_conversation (summarize : List Message → String) (now : String)
    (st : StoreState) (cid : String) (messages : List Message) : StoreState :=
  match st.files.lookup cid with
  | some d =>
    let d2 := { d with messages := messages, updated_at := now }
    add_conversation_to_index summarize now { st with files := setFile st.files cid d2 } cid messages
  | none => save_conversation summarize now st cid messages

/-- Embeds `BASE_INSTRUCTIONS` of src/llm_instructions.py. -/
def BASE_INSTRUCTIONS : String :=
  "\nYou are an intelligent assistant with access to various tools including web search, Wikipedia, and other LLM models. \n" ++
  "\nKey behaviors:\n- Be concise and helpful\n- When using tools, naturally mention what you did in your response\n" ++
  "- For consensus queries, explain that you\x27re consulting multiple models\n- Always verify information when possible\n" ++
  "- If asked about past conversations, use the lookup tool\n" ++
  "\nAvailable tools:\n- wikipedia_search: Search Wikipedia\n- web_search: General web search  \n" ++
  "- call_grok: Consult Grok model\n- call_openai: Consult GPT-5\n- call_gemini: Consult Gemini\n" ++
  "- call_consensus_query: Get responses from multiple models\n- lookup_past_conversations: Search previous conversations\n"

/-- Embeds the `MODEL_INSTRUCTIONS` dictionary of src/llm_instructions.py. -/
def MODEL_INSTRUCTIONS : List (String × String) :=
  [("ollama", BASE_INSTRUCTIONS ++
      "\nYou are an intelligent LLM helper with access to helpful external APIs through tools. \n" ++
      "\nIMPORTANT TOOL USAGE GUIDELINES:\n" ++
      "- If you don\x27t know something or need current information, USE THE TOOLS - don\x27t say \"I don\x27t know\"\n" ++
      "- For factual questions about current events, people, places, or recent information: USE web_search or wikipedia_search\n" ++
      "- For specific questions that require up-to-date or detailed information: ALWAYS use appropriate tools first\n" ++
      "- Don\x27t apologize for not knowing something - just search for it\n" ++
      "\nBe concise with your responses and format them being\n" ++
      "mindful that it will be interpreted with a text to speech program (so avoid excessive formatting characters,\n" ++
      "emojis, etc.). You may be given instructions via speech-to-text, so there may be minor transcription errors.\n"),
   ("grok", BASE_INSTRUCTIONS ++
      "\nYou are Grok running via the X API. \nYou\x27re being called as a tool by another AI system for specific queries. \n" ++
      "Provide accurate, well-reasoned responses.\n"),
   ("openai", BASE_INSTRUCTIONS ++
      "\nYou are GPT-5 running via OpenAI API. \nYou\x27re being called as a tool by another AI system.\n" ++
      "Provide accurate, well-reasoned responses.\n"),
   ("gemini", BASE_INSTRUCTIONS ++
      "\nYou are Gemini 2.5 Pro running via Google\x27s API. \nYou\x27re being called as a tool by another AI system.\n" ++
      "Leverage your multimodal capabilities and extensive knowledge to provide helpful responses.\n"),
   ("claude", BASE_INSTRUCTIONS ++
      "\nYou are Claude (Sonnet) running via Anthropic\x27s API. \nYou\x27re being called as a tool by another AI system.\n" ++
      "Provide thoughtful, well-reasoned responses with attention to nuance and accuracy.\n"),
   ("consensus",
      "\nYou are coordinating responses from multiple AI models (Gemini, GPT-5, Grok, and Claude).\n" ++
      "Your task is to:\n1. Think deeply to understand each model\x27s response clearly\n" ++
      "2. Identify areas of agreement and disagreement\n3. Synthesize a balanced conclusion\n" ++
      "4. Note if any model provided unique insights or a superior response\n5. \n" ++
      "\nFormat your response as:\n**Gemini says:** [response]\n**GPT-5 says:** [response]  \n" ++
      "**Grok says:** [response]\n**Claude says:** [response]\n**Consensus:** [your synthesis]\n")]

/-- Embeds `get_system_prompt` (src/llm_instructions.py lines 83-85). -/
def get_system_prompt (model_type : String) : String :=
  (MODEL_INSTRUCTIONS.lookup model_type).getD BASE_INSTRUCTIONS

/-- Embeds `get_full_prompt` (src/llm_instructions.py lines 95-104) with
`include_custom = True` as at every call site; `custom` is the content of
custom_instructions.md, empty when the file is absent. -/
def get_full_prompt (model_type : String) (custom : String) : String :=
  let prompt := get_system_prompt model_type
  if custom.isEmpty then prompt
  else prompt ++ "\n\nAdditional Instructions:\n" ++ custom

/-- Message object returned by one `client.chat` call: its role, content,
and tool-call requests (empty list when the attribute is absent or falsy). -/
structure ChatResp where
  role : String
  content : String
  tool_calls : List ToolCall
deriving Repr

/-- Exception raised by `Timeout.handle_timeout` (src/timeout.py line 13)
when the alarm fires before the guarded block finished. -/
structure TimeoutError where
  msg : String
deriving DecidableEq, Repr

/-- Embeds the `Timeout` context-manager configuration of src/timeout.py. -/
structure Timeout where
  seconds : Nat
  error_message : String
deriving DecidableEq, Repr

/-- Constructor call `Timeout(seconds)` with the default error message. -/
def mkTimeout (seconds : Nat) : Timeout :=
  { seconds := seconds, error_message := "ABORTING: TIMEOUT ERROR" }

/-- Observable behavior of a `with Timeout(...)` block around a tool call:
the body's result when it completed within the deadline, otherwise the
`TimeoutError` carrying the guard's message. -/
def timeout_run (t : Timeout) (body : Option String) : Except TimeoutError String :=
  match body with
  | some r => Except.ok r
  | none => Except.error { msg := t.error_message }

/-- Tool names recognized by the dispatch chain of `run_conversation`
(src/llm.py lines 692-749), each with its declared timeout in seconds. -/
def tool_table : List (String × Nat) :=
  [("wikipedia_search", 30), ("web_search", 30), ("call_grok", 600), ("call_openai", 600),
   ("call_gemini", 600), ("call_claude", 600), ("call_consensus_query", 900),
   ("call_superconsensus", 1800), ("lookup_past_conversations", 30),
   ("read_file", 30), ("write_file", 30), ("list_directory", 30),
   ("grep_files", 60), ("find_files", 60), ("head_file", 30),
   ("execute_python_code", 60), ("clear_conversation_history", 30), ("list_conversations", 30)]

/-- Names of the registered tools, in dispatch-chain order. -/
def registered_tools : List String := tool_table.map Prod.fst

/-- Embeds the tool dispatch of `run_conversation` (src/llm.py lines
691-751): a registered name runs its handler under the declared deadline —
`exec name args secs = none` meaning the handler had not returned when the
alarm fired — and an unregistered name yields the bare string
result `"Unknown function"` with no guard and no error. -/
def dispatch_tool (exec : String → List (String × String) → Nat → Option String)
    (name : String) (args : List (String × String)) : Except TimeoutError String :=
  match tool_table.lookup name with
  | some secs => timeout_run (mkTimeout secs) (exec name args secs)
  | none => Except.ok "Unknown function"

/-- External collaborators of one `run_conversation` turn: the two
`client.chat` calls, the tool handlers, the index summarizer, the clock and
the generated conversation id, and the custom-instructions file content. -/
structure TurnEnv where
  chat_tools : List Message → ChatResp
  chat_plain : List Message → ChatResp
  exec : String → List (String × String) → Nat → Option String
  summarize : List Message → String
  now : String
  fresh_id : String
  custom : String

/-- Embeds the conversation set-up of `run_conversation` (src/llm.py lines
634-651): choose the conversation id (the supplied one when truthy,
otherwise `generate_conversation_id()`, here `env.fresh_id`), load its
history, seed the system message when the history is empty, and append the
user message. -/
def init_turn (env : TurnEnv) (st : StoreState) (prompt : String)
    (conversation_id : Option String) : String × List Message :=
  let truthy : Bool := match conversation_id with
    | some c => !c.isEmpty
    | none => false
  let cid := match conversation_id with
    | some c => if c.isEmpty then env.fresh_id else c
    | none => env.fresh_id
  let history := if truthy then load_conversation st (conversation_id.getD "") else []
  let seeded := if history.isEmpty
    then [Message.mk "system" (get_full_prompt "ollama" env.custom) none]
    else history
  (cid, seeded ++ [Message.mk "user" prompt none])

/-- Serialization of the first model response into a history message
(src/llm.py lines 663-681): the `tool_calls` key is present exactly when
the response carries tool calls. -/
def assistant_reply (resp : ChatResp) : Message :=
  { role := resp.role, content := resp.content,
    tool_calls := if resp.tool_calls.isEmpty then none else some resp.tool_calls }

/-- Second assistant message appended on the tool path (src/llm.py lines
757-767), repeating the honored tool call. -/
def announce_message (tc : ToolCall) : Message :=
  { role := "assistant",
    content := "I\x27ll search for that information using " ++ tc.name ++ ".",
    tool_calls := some [tc] }

/-- Follow-up prompt embedding the tool name and result (src/llm.py line
755). -/
def followup_prompt (name result : String) : String :=
  "Based on the " ++ name ++ " result: " ++ result ++
  "\n\nPlease provide a helpful response to the user\x27s original question."

/-- Message list of the second `client.chat` call (src/llm.py lines
776-782): fresh system prompt plus the condensed follow-up, not the full
history. -/
def followup_messages (env : TurnEnv) (name result : String) : List Message :=
  [Message.mk "system" (get_full_prompt "ollama" env.custom) none,
   Message.mk "user" (followup_prompt name result) none]

/-- Embeds `run_conversation` (src/llm.py lines 631-805).  The result is
the returned `(response text, conversation id)` pair — or the uncaught
`TimeoutError` — together with the store state after the turn and the list
of `update_conversation` invocations the turn performed (id and message
sequence of each). -/
def run_conversation (env : TurnEnv) (st : StoreState) (prompt : String)
    (conversation_id : Option String) :
    Except TimeoutError (String × String) × StoreState × List (String × List Message) :=
  let cid := (init_turn env st prompt conversation_id).1
  let msgs0 := (init_turn env st prompt conversation_id).2
  let response := env.chat_tools msgs0
  let msgs1 := msgs0 ++ [assistant_reply response]
  match response.tool_calls with
  | [] =>
    (Except.ok (response.content, cid),
     update_conversation env.summarize env.now st cid msgs1, [(cid, msgs1)])
  | tc :: _ =>
    match dispatch_tool env.exec tc.name tc.arguments with
    | Except.error te => (Except.error te, st, [])
    | Except.ok result =>
      let final := env.chat_plain (followup_messages env tc.name result)
      let msgs3 := msgs1 ++ [announce_message tc, Message.mk "tool" result none,
                             Message.mk "assistant" final.content none]
      (Except.ok (final.content, cid),
       update_conversation env.summarize env.now st cid msgs3, [(cid, msgs3)])

/-- System message seeded at the head of a fresh conversation. -/
def system_message (env : TurnEnv) : Message :=
  Message.mk "system" (get_full_prompt "ollama" env.custom) none

/-- Message sequence persisted by a fresh-conversation turn that honors the
tool call `tc` with dispatch result `r`: the seeded history, the serialized
model reply, the repeated announcement, the tool result, and the final
answer. -/
def tool_turn_messages (env : TurnEnv) (st : StoreState) (prompt : String)
    (tc : ToolCall) (r : String) : List Message :=
  ((init_turn env st prompt none).2 ++
    [assistant_reply (env.chat_tools (init_turn env st prompt none).2)]) ++
  [announce_message tc, Message.mk "tool" r none,
   Message.mk "assistant" (env.chat_plain (followup_messages env tc.name r)).content none]

/-- Empty store: no conversation files and an empty index. -/
def st0 : StoreState := ⟨[], []⟩

/-- Constant summarizer used at concrete inputs. -/
def sum0 : List Message → String := fun _ => "summary"

/-- Concrete one-message sequence. -/
def M0 : List Message := [Message.mk "user" "hi" none]

/-- Store holding one existing record under the id c. -/
def stExisting : StoreState := ⟨[("c", ConversationData.mk "c" "t0" "t0" [])], []⟩

/-- Turn environment whose first model response carries no tool calls. -/
def envPlain : TurnEnv :=
  { chat_tools := fun _ => ChatResp.mk "assistant" "ans" [],
    chat_plain := fun _ => ChatResp.mk "assistant" "final" [],
    exec := fun _ _ _ => some "unused",
    summarize := fun _ => "summary",
    now := "2025-01-01T00:00:00",
    fresh_id := "fresh_123",
    custom := "" }

/-- Turn environment whose first model response requests exactly one
registered tool, web_search with argument query = x, and whose handler
returns promptly. -/
def envTool : TurnEnv :=
  { chat_tools := fun _ => ChatResp.mk "assistant" "" [ToolCall.mk "web_search" [("query", "x")]],
    chat_plain := fun _ => ChatResp.mk "assistant" "Here are the results." [],
    exec := fun _ _ _ => some "RESULT",
    summarize := fun _ => "summary",
    now := "2025-01-01T00:00:00",
    fresh_id := "fresh_123",
    custom := "" }

/-- Turn environment whose first model response requests an unregistered
tool name. -/
def envUnknown : TurnEnv :=
  { chat_tools := fun _ => ChatResp.mk "assistant" "" [ToolCall.mk "not_a_tool" []],
    chat_plain := fun _ => ChatResp.mk "assistant" "done" [],
    exec := fun _ _ _ => some "never",
    summarize := fun _ => "summary",
    now := "2025-01-01T00:00:00",
    fresh_id := "fresh_123",
    custom := "" }

/-- Turn environment whose dispatched tool misses its deadline, so the
guard's alarm fires. -/
def envTimeout : TurnEnv :=
  { chat_tools := fun _ => ChatResp.mk "assistant" "" [ToolCall.mk "web_search" [("query", "x")]],
    chat_plain := fun _ => ChatResp.mk "assistant" "never reached" [],
    exec := fun _ _ _ => none,
    summarize := fun _ => "summary",
    now := "2025-01-01T00:00:00",
    fresh_id := "fresh_123",
    custom := "" }

/-!
Theorems.  Helper lemmas come first, then one theorem per claim (with its
witness or counterexample where required).
-/

/-- Looking up the id just written by `setFile` yields the written record. -/
theorem lookup_setFile_self (fs : List (String × ConversationData)) (cid : String)
    (d : ConversationData) : (setFile fs cid d).lookup cid = some d := by
  induction fs with
  | nil => simp [setFile, List.lookup]
  | cons hd tl ih =>
    obtain ⟨k, v⟩ := hd
    by_cases h : k = cid
    · subst h
      simp [setFile, List.lookup]
    · have hb : (k == cid) = false := beq_eq_false_iff_ne.mpr h
      have hb2 : (cid == k) = false := beq_eq_false_iff_ne.mpr (Ne.symm h)
      simp [setFile, hb, hb2, List.lookup, ih]

/-- Searching the index for the id just upserted yields the new entry. -/
theorem find?_upsertIndex (idx : List IndexEntry) (cid : String) (entry : IndexEntry)
    (he : entry.id = cid) :
    (upsertIndex cid entry idx).find? (fun e => e.id == cid) = some entry := by
  induction idx with
  | nil => simp [upsertIndex, List.find?, he]
  | cons e0 rest ih =>
    by_cases h : e0.id = cid
    · simp [upsertIndex, h, List.find?, he]
    · have hb : (e0.id == cid) = false := beq_eq_false_iff_ne.mpr h
      simp [upsertIndex, hb, List.find?, ih]

/-- Unregistered key: association-list lookup misses. -/
theorem lookup_eq_none_of_not_mem {β : Type} (l : List (String × β)) (k : String)
    (h : ¬ k ∈ l.map Prod.fst) : l.lookup k = none := by
  induction l with
  | nil => rfl
  | cons hd tl ih =>
    obtain ⟨k0, v0⟩ := hd
    simp only [List.map, List.mem_cons] at h
    push_neg at h
    have hb : (k == k0) = false := beq_eq_false_iff_ne.mpr h.1
    simp [List.lookup, hb, ih h.2]

/-- C7: immediately after any save or update of a conversation id, the index
entry stored for that id exists and its message_count equals the length of
the message sequence just persisted for that id (which a load returns). -/
theorem index_message_count_matches (s : List Message → String) (now : String)
    (st : StoreState) (cid : String) (M : List Message) :
    ((lookupIndex (save_conversation s now st cid M) cid).map IndexEntry.message_count =
        some M.length) ∧
    load_conversation (save_conversation s now st cid M) cid = M ∧
    ((lookupIndex (update_conversation s now st cid M) cid).map IndexEntry.message_count =
        some M.length) ∧
    load_conversation (update_conversation s now st cid M) cid = M := by
  have hsave_idx : (lookupIndex (save_conversation s now st cid M) cid).map
      IndexEntry.message_count = some M.length := by
    simp [save_conversation, add_conversation_to_index, lookupIndex, find?_upsertIndex]
  have hsave_load : load_conversation (save_conversation s now st cid M) cid = M := by
    simp [save_conversation, add_conversation_to_index, load_conversation, lookup_setFile_self]
  refine ⟨hsave_idx, hsave_load, ?_, ?_⟩
  · cases hl : st.files.lookup cid with
    | none => simpa [update_conversation, hl] using hsave_idx
    | some d =>
      simp [update_conversation, hl, add_conversation_to_index, lookupIndex, find?_upsertIndex]
  · cases hl : st.files.lookup cid with
    | none => simpa [update_conversation, hl] using hsave_load
    | some d =>
      simp [update_conversation, hl, add_conversation_to_index, load_conversation,
        lookup_setFile_self]

/-- C8: round-trip — saving a message sequence under an id and loading that
id returns the same sequence, element for element, in order. -/
theorem save_load_round_trip (s : List Message → String) (now : String)
    (st : StoreState) (cid : String) (M : List Message) :
    load_conversation (save_conversation s now st cid M) cid = M := by
  simp [save_conversation, add_conversation_to_index, load_conversation, lookup_setFile_self]

/-- C9: updating an id with no persisted record does not fail and is the
same operation as saving it — it creates the record (so a load returns the
new messages) and writes an index entry for the id. -/
theorem update_missing_is_save (s : List Message → String) (now : String)
    (st : StoreState) (cid : String) (M : List Message)
    (h : st.files.lookup cid = none) :
    update_conversation s now st cid M = save_conversation s now st cid M ∧
    load_conversation (update_conversation s now st cid M) cid = M ∧
    ∃ e, lookupIndex (update_conversation s now st cid M) cid = some e ∧
      e.id = cid ∧ e.message_count = M.length := by
  have h1 : update_conversation s now st cid M = save_conversation s now st cid M := by
    simp [update_conversation, h]
  refine ⟨h1, ?_, ?_⟩
  · rw [h1]
    exact save_load_round_trip s now st cid M
  · rw [h1]
    refine ⟨IndexEntry.mk cid (s M) M.length now ("conversations/" ++ cid ++ ".json"),
      ?_, rfl, rfl⟩
    simp [save_conversation, add_conversation_to_index, lookupIndex, find?_upsertIndex]

/-- Witness for C9 at a concrete empty store. -/
theorem update_missing_is_save_witness :
    st0.files.lookup "c" = none ∧
    update_conversation sum0 "t" st0 "c" M0 = save_conversation sum0 "t" st0 "c" M0 :=
  ⟨rfl, (update_missing_is_save sum0 "t" st0 "c" M0 rfl).1⟩

/-- C10: updating an id that has a persisted record rewrites only the
messages and updated_at fields of the record; its id and created_at fields
are unchanged. -/
theorem update_preserves_identity (s : List Message → String) (now : String)
    (st : StoreState) (cid : String) (M : List Message) (d : ConversationData)
    (h : st.files.lookup cid = some d) :
    ∃ d2, (update_conversation s now st cid M).files.lookup cid = some d2 ∧
      d2.id = d.id ∧ d2.created_at = d.created_at ∧
      d2.messages = M ∧ d2.updated_at = now := by
  refine ⟨{ d with messages := M, updated_at := now }, ?_, rfl, rfl, rfl, rfl⟩
  simp [update_conversation, h, add_conversation_to_index, lookup_setFile_self]

/-- Witness for C10 at a concrete store with one existing record. -/
theorem update_preserves_identity_witness :
    stExisting.files.lookup "c" = some (ConversationData.mk "c" "t0" "t0" []) ∧
    ∃ d2, (update_conversation sum0 "t1" stExisting "c" M0).files.lookup "c" = some d2 ∧
      d2.created_at = "t0" ∧ d2.messages = M0 := by
  obtain ⟨d2, hl, _, hc, hm, _⟩ :=
    update_preserves_identity sum0 "t1" stExisting "c" M0 (ConversationData.mk "c" "t0" "t0" []) rfl
  exact ⟨rfl, d2, hl, hc, hm⟩

/-- C1: for every prompt and every pattern of backend failures,
`call_consensus_query` returns a bundle keyed by exactly the four backends
(gemini, grok, gpt, claude), and the entry under each backend key is a
function of that backend's own outcome alone (an inline error entry when its
future failed, the wrapper result otherwise), so one backend's failure never
removes or alters the entries of the other three. -/
theorem call_consensus_query_four_entries (w : LlmWorld) (fut : Backend → Option String)
    (prompt : String) :
    ((call_consensus_query w fut prompt).1.map Prod.fst = consensusOrder) ∧
    (∀ b : Backend, (call_consensus_query w fut prompt).1.lookup b =
      some (consensus_entry b (fut b) (backend_api w b prompt))) := by
  refine ⟨rfl, ?_⟩
  intro b
  cases b <;> rfl

/-- C2 counterexample: under the judge assignment realized by the selection
closures of `call_superconsensus`, gemini serves as judge for two of the
four round-1 pairs and claude for none, so it is false that every backend
serves as judge for exactly one pair (no cyclic assignment exists). -/
theorem superconsensus_judge_not_one_each :
    (consensusOrder.filter (fun b => judgeOf b == Backend.gemini)).length = 2 ∧
    (consensusOrder.filter (fun b => judgeOf b == Backend.claude)).length = 0 ∧
    (consensusOrder.filter (fun b => judgeOf b == Backend.gpt)).length = 1 ∧
    (consensusOrder.filter (fun b => judgeOf b == Backend.grok)).length = 1 := by
  decide

/-- C2 (amended): in superconsensus round 2 each backend's pair of round-1
answers is routed, as a selector prompt, through the wrapper and oracle of
backend `judgeOf b`, under the fixed assignment gemini ↦ gpt, grok ↦ gemini,
gpt ↦ grok, claude ↦ gemini; no backend judges its own pair, but the
assignment is not cyclic: gemini judges two pairs and claude none. -/
theorem superconsensus_judge_assignment (env : SuperEnv) (prompt : String) (b : Backend)
    (h : env.selectionFailed b = false) :
    superconsensus_selections env prompt b =
      wrapper_for (judgeOf b) (backendCall env.w (judgeOf b))
        (selector_prompt b prompt (round1_result env prompt b 0) (round1_result env prompt b 1)) ∧
    judgeOf b ≠ b ∧
    judgeOf Backend.gemini = Backend.gpt ∧ judgeOf Backend.grok = Backend.gemini ∧
    judgeOf Backend.gpt = Backend.grok ∧ judgeOf Backend.claude = Backend.gemini := by
  refine ⟨?_, ?_, rfl, rfl, rfl, rfl⟩
  · cases b <;>
      simp [superconsensus_selections, h, select_for, select_best_gemini, select_best_grok,
        select_best_gpt, select_best_claude, wrapper_for, judgeOf, selector_prompt, backendCall]
  · cases b <;> decide

/-- Witness for the amended C2 theorem at a concrete environment. -/
theorem superconsensus_judge_assignment_witness :
    superEnv0.selectionFailed Backend.claude = false ∧
    superconsensus_selections superEnv0 "p" Backend.claude =
      wrapper_for (judgeOf Backend.claude) (backendCall superEnv0.w (judgeOf Backend.claude))
        (selector_prompt Backend.claude "p" (round1_result superEnv0 "p" Backend.claude 0)
          (round1_result superEnv0 "p" Backend.claude 1)) :=
  ⟨rfl, (superconsensus_judge_assignment superEnv0 "p" Backend.claude rfl).1⟩

/-- Shape of a fresh-conversation turn whose first model response carries a
tool call and whose dispatch returns a result within its deadline. -/
theorem run_tool_ok (env : TurnEnv) (st : StoreState) (prompt : String) (tc : ToolCall)
    (rest : List ToolCall) (r : String)
    (hchat : (env.chat_tools (init_turn env st prompt none).2).tool_calls = tc :: rest)
    (hdisp : dispatch_tool env.exec tc.name tc.arguments = Except.ok r) :
    run_conversation env st prompt none =
      (Except.ok ((env.chat_plain (followup_messages env tc.name r)).content, env.fresh_id),
       update_conversation env.summarize env.now st env.fresh_id
         (tool_turn_messages env st prompt tc r),
       [(env.fresh_id, tool_turn_messages env st prompt tc r)]) := by
  have hcid : (init_turn env st prompt none).1 = env.fresh_id := rfl
  simp only [run_conversation, hchat, hdisp, hcid, tool_turn_messages]

/-- C3 counterexample: a turn in a new conversation whose first model
response requests exactly one registered tool (web_search with query x,
handler returning promptly) persists six messages, in the order system,
user, assistant, assistant, tool, assistant — the assistant tool-call
message is appended twice — not the five messages the claim states. -/
theorem tool_turn_persists_six_messages :
    ((load_conversation (run_conversation envTool st0 "q" none).2.1 envTool.fresh_id).map
        Message.role = ["system", "user", "assistant", "assistant", "tool", "assistant"]) ∧
    (load_conversation (run_conversation envTool st0 "q" none).2.1 envTool.fresh_id).length = 6 := by
  exact ⟨rfl, rfl⟩

/-- C3 (amended): for a turn in a new conversation whose first model
response (role assistant) requests exactly one tool call that dispatches
successfully, the persisted sequence has exactly six messages in the order
system, user, assistant carrying the tool call, a second assistant message
carrying the same tool call, tool carrying the tool result, assistant
carrying the final answer. -/
theorem tool_turn_persisted_shape (env : TurnEnv) (st : StoreState) (prompt : String)
    (tc : ToolCall) (r : String)
    (hchat : (env.chat_tools (init_turn env st prompt none).2).tool_calls = [tc])
    (hrole : (env.chat_tools (init_turn env st prompt none).2).role = "assistant")
    (hdisp : dispatch_tool env.exec tc.name tc.arguments = Except.ok r) :
    run_conversation env st prompt none =
      (Except.ok ((env.chat_plain (followup_messages env tc.name r)).content, env.fresh_id),
       update_conversation env.summarize env.now st env.fresh_id
         (tool_turn_messages env st prompt tc r),
       [(env.fresh_id, tool_turn_messages env st prompt tc r)]) ∧
    tool_turn_messages env st prompt tc r =
      [system_message env, Message.mk "user" prompt none,
       Message.mk "assistant" (env.chat_tools (init_turn env st prompt none).2).content
         (some [tc]),
       announce_message tc, Message.mk "tool" r none,
       Message.mk "assistant" (env.chat_plain (followup_messages env tc.name r)).content none] ∧
    (tool_turn_messages env st prompt tc r).map Message.role =
      ["system", "user", "assistant", "assistant", "tool", "assistant"] := by
  have hmsgs : tool_turn_messages env st prompt tc r =
      [system_message env, Message.mk "user" prompt none,
       Message.mk "assistant" (env.chat_tools (init_turn env st prompt none).2).content
         (some [tc]),
       announce_message tc, Message.mk "tool" r none,
       Message.mk "assistant" (env.chat_plain (followup_messages env tc.name r)).content none] := by
    have hinit : (init_turn env st prompt none).2 =
        [system_message env, Message.mk "user" prompt none] := rfl
    have hchat2 : (env.chat_tools [system_message env,
        Message.mk "user" prompt none]).tool_calls = [tc] := hchat
    have hrole2 : (env.chat_tools [system_message env,
        Message.mk "user" prompt none]).role = "assistant" := hrole
    simp [tool_turn_messages, hinit, assistant_reply, hchat2, hrole2]
  refine ⟨run_tool_ok env st prompt tc [] r hchat hdisp, hmsgs, ?_⟩
  simp [hmsgs, system_message, announce_message]

/-- Witness for the amended C3 theorem at a concrete environment. -/
theorem tool_turn_persisted_shape_witness :
    (envTool.chat_tools (init_turn envTool st0 "q" none).2).tool_calls =
        [ToolCall.mk "web_search" [("query", "x")]] ∧
    (tool_turn_messages envTool st0 "q" (ToolCall.mk "web_search" [("query", "x")]) "RESULT").map
        Message.role = ["system", "user", "assistant", "assistant", "tool", "assistant"] :=
  ⟨rfl, (tool_turn_persisted_shape envTool st0 "q" (ToolCall.mk "web_search" [("query", "x")])
    "RESULT" rfl rfl rfl).2.2⟩

/-- C4 counterexample: dispatching the unregistered tool name not_a_tool
yields the plain result string Unknown function, the turn completes with an
ok response, and the conversation store is mutated: the turn performs one
store update and the store gains a record, starting from the empty store. -/
theorem unknown_tool_updates_store :
    dispatch_tool envUnknown.exec "not_a_tool" [] = Except.ok "Unknown function" ∧
    (run_conversation envUnknown st0 "hi" none).1 =
      Except.ok ((envUnknown.chat_plain
        (followup_messages envUnknown "not_a_tool" "Unknown function")).content,
        envUnknown.fresh_id) ∧
    (run_conversation envUnknown st0 "hi" none).2.2.length = 1 ∧
    st0.files.length = 0 ∧
    ((run_conversation envUnknown st0 "hi" none).2.1).files.length = 1 := by
  exact ⟨rfl, rfl, rfl, rfl, rfl⟩

/-- C4 (amended): dispatching an unregistered tool name does not fail and
mutates the conversation: the dispatch yields the plain string
Unknown function, which is persisted as the tool message, the turn completes
normally, and the conversation store is updated exactly once with the full
six-message sequence. -/
theorem unknown_tool_turn (env : TurnEnv) (st : StoreState) (prompt : String) (tc : ToolCall)
    (hchat : (env.chat_tools (init_turn env st prompt none).2).tool_calls = [tc])
    (hreg : ¬ tc.name ∈ registered_tools) :
    dispatch_tool env.exec tc.name tc.arguments = Except.ok "Unknown function" ∧
    run_conversation env st prompt none =
      (Except.ok ((env.chat_plain
          (followup_messages env tc.name "Unknown function")).content, env.fresh_id),
       update_conversation env.summarize env.now st env.fresh_id
         (tool_turn_messages env st prompt tc "Unknown function"),
       [(env.fresh_id, tool_turn_messages env st prompt tc "Unknown function")]) := by
  have hnone : tool_table.lookup tc.name = none :=
    lookup_eq_none_of_not_mem tool_table tc.name hreg
  have hdisp : dispatch_tool env.exec tc.name tc.arguments = Except.ok "Unknown function" := by
    simp [dispatch_tool, hnone]
  exact ⟨hdisp, run_tool_ok env st prompt tc [] "Unknown function" hchat hdisp⟩

/-- Witness for the amended C4 theorem at a concrete environment. -/
theorem unknown_tool_turn_witness :
    ¬ "not_a_tool" ∈ registered_tools ∧
    dispatch_tool envUnknown.exec "not_a_tool" [] = Except.ok "Unknown function" := by
  have h : ¬ "not_a_tool" ∈ registered_tools := by decide
  exact ⟨h, (unknown_tool_turn envUnknown st0 "hi" (ToolCall.mk "not_a_tool" []) rfl h).1⟩

/-- C5 counterexample: with an empty store, running a turn with the supplied
conversation id oldid — whose conversation cannot be loaded — completes
using the supplied id oldid, not the freshly generated id fresh_123 of the
environment. -/
theorem supplied_unloadable_id_kept :
    load_conversation st0 "oldid" = [] ∧
    (run_conversation envPlain st0 "hi" (some "oldid")).1 = Except.ok ("ans", "oldid") ∧
    envPlain.fresh_id = "fresh_123" ∧
    ("oldid" == envPlain.fresh_id) = false := by
  exact ⟨rfl, rfl, rfl, rfl⟩

/-- C5 (amended): when the conversation id is absent (or supplied as the
empty string) a freshly generated id is used and a system-role message is
seeded before the user message; when a nonempty id is supplied but its
conversation cannot be loaded, that supplied id is kept for the turn — no
fresh id is generated — and the system-role message is likewise seeded
first, followed by the user message. -/
theorem init_turn_seeding (env : TurnEnv) (st : StoreState) (prompt : String) :
    init_turn env st prompt none =
      (env.fresh_id, [system_message env, Message.mk "user" prompt none]) ∧
    init_turn env st prompt (some "") =
      (env.fresh_id, [system_message env, Message.mk "user" prompt none]) ∧
    (∀ c : String, c.isEmpty = false → load_conversation st c = [] →
      init_turn env st prompt (some c) =
        (c, [system_message env, Message.mk "user" prompt none])) := by
  refine ⟨rfl, rfl, ?_⟩
  intro c hc hl
  simp [init_turn, hc, hl, system_message]

/-- Witness for the amended C5 theorem at a concrete environment. -/
theorem init_turn_seeding_witness :
    "oldid".isEmpty = false ∧ load_conversation st0 "oldid" = [] ∧
    init_turn envPlain st0 "hi" (some "oldid") =
      ("oldid", [system_message envPlain, Message.mk "user" "hi" none]) :=
  ⟨rfl, rfl, (init_turn_seeding envPlain st0 "hi").2.2 "oldid" rfl rfl⟩

/-- C6: every terminal path of a turn that returns a response performs
exactly one store update, with the full final message sequence, and the
returned store state is exactly that update; whereas when the deadline guard
around the dispatch raises, the error propagates out of the turn, the store
is untouched and no update at all is performed. -/
theorem run_conversation_update_discipline (env : TurnEnv) (st : StoreState)
    (prompt : String) (c : Option String) :
    (∀ v : String × String, (run_conversation env st prompt c).1 = Except.ok v →
      ∃ msgs, (run_conversation env st prompt c).2.2 = [(v.2, msgs)] ∧
        (run_conversation env st prompt c).2.1 =
          update_conversation env.summarize env.now st v.2 msgs) ∧
    (∀ te : TimeoutError, (run_conversation env st prompt c).1 = Except.error te →
      (run_conversation env st prompt c).2.2 = [] ∧
      (run_conversation env st prompt c).2.1 = st ∧
      ∃ tc rest, (env.chat_tools (init_turn env st prompt c).2).tool_calls = tc :: rest ∧
        dispatch_tool env.exec tc.name tc.arguments = Except.error te) := by
  cases hc : (env.chat_tools (init_turn env st prompt c).2).tool_calls with
  | nil =>
    constructor
    · intro v hv
      simp only [run_conversation, hc] at hv ⊢
      injection hv with h
      subst h
      exact ⟨_, rfl, rfl⟩
    · intro te hte
      simp only [run_conversation, hc] at hte
      simp at hte
  | cons tc rest =>
    cases hd : dispatch_tool env.exec tc.name tc.arguments with
    | error te0 =>
      constructor
      · intro v hv
        simp only [run_conversation, hc, hd] at hv
        simp at hv
      · intro te hte
        simp only [run_conversation, hc, hd] at hte
        injection hte with h
        subst h
        refine ⟨?_, ?_, tc, rest, rfl, hd⟩
        · simp only [run_conversation, hc, hd]
        · simp only [run_conversation, hc, hd]
    | ok res =>
      constructor
      · intro v hv
        simp only [run_conversation, hc, hd] at hv ⊢
        injection hv with h
        subst h
        exact ⟨_, rfl, rfl⟩
      · intro te hte
        simp only [run_conversation, hc, hd] at hte
        simp at hte

/-- Witness for C6 at two concrete environments: a completing turn with its
single store update, and a timing-out turn with none. -/
theorem run_conversation_update_discipline_witness :
    (∃ msgs, (run_conversation envPlain st0 "hi" none).2.2 = [("fresh_123", msgs)] ∧
      (run_conversation envPlain st0 "hi" none).2.1 =
        update_conversation envPlain.summarize envPlain.now st0 "fresh_123" msgs) ∧
    ((run_conversation envTimeout st0 "hi" none).2.2 = [] ∧
      (run_conversation envTimeout st0 "hi" none).2.1 = st0) := by
  constructor
  · exact (run_conversation_update_discipline envPlain st0 "hi" none).1 ("ans", "fresh_123") rfl
  · obtain ⟨h1, h2, _⟩ := (run_conversation_update_discipline envTimeout st0 "hi" none).2
      (TimeoutError.mk "ABORTING: TIMEOUT ERROR") rfl
    exact ⟨h1, h2⟩

end LocalBrain
